import Mathlib

set_option autoImplicit false

/-!
Verification development for the txcosm client library cores: the
token-multiplexed persistent-socket client (PAWSClient.py) and the
HTTP client with per-request timeout bookkeeping (HTTPClient.py).

Python dicts keyed by token/request-id strings are embedded as
association lists; each client method that mutates instance state is
embedded as an explicit state-transformer function.
-/

namespace Txcosm

/-- Association-list embedding of a Python dict with string keys. -/
abbrev Table (α : Type) := List (String × α)

/-- Dict lookup: first (unique) binding for the key, if any. -/
def Table.lookup {α : Type} (m : Table α) (k : String) : Option α :=
  match m with
  | [] => none
  | (k', v) :: rest => if k' = k then some v else Table.lookup rest k

/-- Python `k in d` membership test. -/
def Table.hasKey {α : Type} (m : Table α) (k : String) : Bool :=
  (Table.lookup m k).isSome

/-- Python `del d[k]` (keys are unique, so removing every binding is the same). -/
def Table.erase {α : Type} (m : Table α) (k : String) : Table α :=
  match m with
  | [] => []
  | (k', v) :: rest =>
    if k' = k then Table.erase rest k else (k', v) :: Table.erase rest k

/-- Python `d[k] = v`. -/
def Table.insert {α : Type} (m : Table α) (k : String) (v : α) : Table α :=
  (k, v) :: Table.erase m k

theorem Table.lookup_erase_self {α : Type} (m : Table α) (k : String) :
    Table.lookup (Table.erase m k) k = none := by
  induction m with
  | nil => rfl
  | cons p rest ih =>
    by_cases h : p.1 = k
    · simpa [Table.erase, h] using ih
    · simpa [Table.erase, Table.lookup, h] using ih

theorem Table.lookup_erase_ne {α : Type} (m : Table α) (k k' : String) (h : k' ≠ k) :
    Table.lookup (Table.erase m k) k' = Table.lookup m k' := by
  induction m with
  | nil => rfl
  | cons p rest ih =>
    by_cases hp : p.1 = k
    · have hne : p.1 ≠ k' := fun hc => h (hc ▸ hp)
      simp [Table.erase, Table.lookup, hp, hne, ih, Ne.symm h]
    · by_cases hp' : p.1 = k'
      · simp [Table.erase, Table.lookup, hp, hp', h]
      · simp [Table.erase, Table.lookup, hp, hp', ih]

theorem Table.lookup_insert_self {α : Type} (m : Table α) (k : String) (v : α) :
    Table.lookup (Table.insert m k v) k = some v := by
  simp [Table.insert, Table.lookup]

theorem Table.hasKey_erase_self {α : Type} (m : Table α) (k : String) :
    Table.hasKey (Table.erase m k) k = false := by
  simp [Table.hasKey, Table.lookup_erase_self]

theorem Table.hasKey_insert_self {α : Type} (m : Table α) (k : String) (v : α) :
    Table.hasKey (Table.insert m k v) k = true := by
  simp [Table.hasKey, Table.lookup_insert_self]

/-!
## PAWSProtocol framing (PAWSClient.py lines 16-55)

The byte stream is modelled as a list of characters; `dataReceived`
returns the list of messages handed to `factory.messageHandler` (in
call order) together with the new buffer contents. Python's
`buf.split('\n')` coincides with Mathlib's `List.splitOn '\n'`
(both produce every, possibly empty, separator-delimited segment).
-/

namespace PAWSProtocol

/-- The single-byte message delimiter (`delimiter = '\n'`). -/
def delimiter : Char := '\n'

/-- `PAWSProtocol.dataReceived`: append the chunk to the buffer; if the
delimiter occurs, dispatch every split segment but the last to the
message callback and retain the last segment as the new buffer;
otherwise just keep buffering. Returns (dispatched messages, new buffer). -/
def dataReceived (buffer data : List Char) : List (List Char) × List Char :=
  let buf := buffer ++ data
  if buf.contains delimiter then
    let msgs := buf.splitOn delimiter
    (msgs.dropLast, msgs.getLastD [])
  else
    ([], buf)

theorem not_mem_splitOn_delimiter (l : List Char) :
    ∀ seg ∈ l.splitOn delimiter, delimiter ∉ seg := by
  induction l with
  | nil =>
    intro seg hseg
    rw [List.splitOn, List.splitOnP_nil] at hseg
    simp only [List.mem_singleton] at hseg
    simp [hseg]
  | cons c rest ih =>
    simp only [List.splitOn] at ih ⊢
    rw [List.splitOnP_cons]
    by_cases hc : c = delimiter
    · intro seg hseg
      rw [if_pos (by simp [hc])] at hseg
      rcases List.mem_cons.mp hseg with hseg | hseg
      · simp [hseg]
      · exact ih seg hseg
    · intro seg hseg
      rw [if_neg (by simp [hc])] at hseg
      cases h' : rest.splitOnP (· == delimiter) with
      | nil => exact absurd h' (List.splitOnP_ne_nil _ rest)
      | cons s ss =>
        rw [h'] at hseg
        simp only [List.modifyHead] at hseg
        rcases List.mem_cons.mp hseg with hseg | hseg
        · subst hseg
          intro hmem
          rcases List.mem_cons.mp hmem with hmem | hmem
          · exact hc hmem.symm
          · exact ih s (by rw [h']; exact List.mem_cons_self s ss) hmem
        · exact ih seg (by rw [h']; exact List.mem_cons_of_mem s hseg)

theorem dropLast_append_getLastD {α : Type} (l : List α) (d : α)
    (h : l ≠ []) : l.dropLast ++ [l.getLastD d] = l := by
  induction l generalizing d with
  | nil => exact absurd rfl h
  | cons a rest ih =>
    cases rest with
    | nil => rfl
    | cons b t =>
      have := ih (d := a) (by simp)
      simpa [List.getLastD] using this

end PAWSProtocol

/-!
## PAWSProtocolFactory connection management (PAWSClient.py lines 58-178)

The factory owns one protocol instance (`connection`), a boolean
`connected` flag, and the reconnection flag `continueTrying` inherited
from ReconnectingClientFactory. `reactor.connectTCP` calls are counted
so that "opens a new TCP connection" is observable in the model.
-/

namespace PAWSProtocolFactory

structure FactoryState where
  /-- `self.connection`: the registered protocol instance, if any.
  Set by `registerConnection`; never reset to `None` anywhere. -/
  connection : Option Nat
  /-- `self.connected`, maintained by `_connectionStateHandler`. -/
  connected : Bool
  /-- `self.continueTrying` of ReconnectingClientFactory. -/
  continueTrying : Bool
  /-- Number of `reactor.connectTCP` calls made so far. -/
  tcpConnectAttempts : Nat
deriving DecidableEq

/-- Factory state at construction (`__init__`). -/
def initialFactory : FactoryState :=
  { connection := none, connected := false, continueTrying := false
    tcpConnectAttempts := 0 }

/-- How a `connect()` call returns to the caller. -/
inductive ConnectOutcome
  /-- A fresh `_connectDeferred` was returned: the caller suspends until
  the TCP connection attempt completes or fails. -/
  | suspendedOnNewConnection
  /-- `defer.succeed(True)` was returned: the call resolves immediately
  and successfully ("Already connected, ignoring connect request"). -/
  | immediateSuccess
deriving DecidableEq

/-- `PAWSProtocolFactory.connect`: if `self.connection is None`, call
`reactor.connectTCP` and hand back a fresh pending deferred; otherwise
log a warning and return an already-succeeded deferred. -/
def connect (s : FactoryState) : FactoryState × ConnectOutcome :=
  match s.connection with
  | none =>
    ({ s with tcpConnectAttempts := s.tcpConnectAttempts + 1 },
     ConnectOutcome.suspendedOnNewConnection)
  | some _ => (s, ConnectOutcome.immediateSuccess)

/-- `PAWSProtocolFactory.registerConnection` (with the
`_connectionStateHandler(True)` it performs): store the protocol and
mark the factory connected. `self.connection` is assigned here and
nowhere unassigned. -/
def registerConnection (s : FactoryState) (proto : Nat) : FactoryState :=
  { s with connection := some proto, connected := true }

/-- `PAWSProtocolFactory.buildProtocol` side effects on the factory:
re-enable automatic reconnection. (The fresh protocol itself is handed
to the reactor.) -/
def buildProtocol (s : FactoryState) : FactoryState :=
  { s with continueTrying := true }

/-- `PAWSProtocolFactory.clientConnectionLost`: runs
`_connectionStateHandler(False)`; `self.connection` is left pointing at
the dead protocol instance. -/
def clientConnectionLost (s : FactoryState) : FactoryState :=
  { s with connected := false }

/-- `PAWSProtocolFactory.disconnect`: if a connection object exists,
close it and disable reconnection; otherwise log and succeed at once. -/
def disconnect (s : FactoryState) : FactoryState :=
  match s.connection with
  | some _ => { s with continueTrying := false }
  | none => s

end PAWSProtocolFactory

/-!
## PAWSClient (PAWSClient.py lines 181-967)

Client state: the `pendingResponses` dict (token to one-shot response
deferred, modelled by a numeric deferred handle), the
`subscriptionHandlers` dict (token to handler callback and expected
data-structure kind), the data written to the transport, and fresh-name
supplies for deferred handles and generated uuid tokens.
-/

namespace PAWSClient

/-- The txcosm data-structure class bound to a subscription
(`txcosm.Datastream` or `txcosm.Environment`). -/
inductive DSKind
  | Datastream
  | Environment
deriving DecidableEq

/-- An inbound PAWS message after `json.loads`: token, status code,
response headers and body. -/
structure InMessage where
  token : String
  status : Nat
  headers : Table String
  body : String
deriving DecidableEq

/-- The outbound envelope built by `_sendRequest` and serialized over
the transport. -/
structure OutMessage where
  method : String
  resource : List Char
  headers : Table String
  parameters : Option String
  body : Option String
  token : String
deriving DecidableEq

structure ClientState where
  /-- `self.pendingResponses`: token to the pending response deferred
  (deferreds are identified by the numeric handle they were created with). -/
  pendingResponses : Table Nat
  /-- `self.subscriptionHandlers`: token to (handler callback,
  data-structure class) as registered by `subscribe`. -/
  subscriptionHandlers : Table (Nat × DSKind)
  /-- Envelopes written to the transport via `self.factory.send`. -/
  sent : List OutMessage
  /-- Fresh-name supply for deferred handles. -/
  nextDeferred : Nat
  /-- Fresh-name supply backing `_generateToken` (`uuid.uuid1()`). -/
  nextToken : Nat
deriving DecidableEq

/-- `PAWSClient._generateToken`: a fresh process-unique token. -/
def generateToken (n : Nat) : String :=
  "uuid-" ++ toString n

/-- `PAWSClient._getResponseCodeStatusFromHeader`: success is exactly a
200 status; anything else is logged and reported as `False`. -/
def getResponseCodeStatusFromHeader (status : Nat) : Bool :=
  status == 200

/-- `PAWSClient._getLocationFromHeader`: on a 201 response return the
upper-case `LOCATION` header value; raise an exception (modelled as
`Except.error`) when the header is absent or when the status is not
201 at all. -/
def getLocationFromHeader (status : Nat) (headers : Table String) :
    Except String String :=
  if status = 201 then
    match Table.lookup headers "LOCATION" with
    | some location => Except.ok location
    | none => Except.error "No response header Location field found"
  else
    Except.error "Unexpected response. Expected 201"

/-- What `_messageHandler` did with one inbound message. -/
inductive DispatchOutcome
  /-- The token matched `pendingResponses`: that deferred's callback
  chain ran with the message and the entry was deleted. -/
  | resolvedPending (deferredId : Nat) (data : InMessage)
  /-- The token matched `subscriptionHandlers`: the stored handler was
  invoked with the message body decoded as the stored kind; the entry
  was not removed. -/
  | invokedHandler (handlerId : Nat) (kind : DSKind) (body : String)
  /-- Neither table knows the token: the message was logged as
  unrecognised and dropped. -/
  | unroutable
deriving DecidableEq

/-- `PAWSClient._messageHandler`, parametrized by the state effect `k`
of running the matched pending deferred's callback chain (for ordinary
requests the chain only consumes the data; for a subscribe
acknowledgement it registers the subscription handler). The chain runs
before the `del self.pendingResponses[token]` cleanup, exactly as in
the source. -/
def messageHandlerWith (k : String → ClientState → ClientState)
    (s : ClientState) (m : InMessage) : ClientState × DispatchOutcome :=
  match Table.lookup s.pendingResponses m.token with
  | some d =>
    let s1 := k m.token s
    ({ s1 with pendingResponses := Table.erase s1.pendingResponses m.token },
     DispatchOutcome.resolvedPending d m)
  | none =>
    match Table.lookup s.subscriptionHandlers m.token with
    | some (handlerId, kind) =>
      (s, DispatchOutcome.invokedHandler handlerId kind m.body)
    | none => (s, DispatchOutcome.unroutable)

/-- `PAWSClient._messageHandler` for messages whose pending callback
chain does not touch the client's tables (every chain except a
subscribe acknowledgement). -/
def messageHandler (s : ClientState) (m : InMessage) :
    ClientState × DispatchOutcome :=
  messageHandlerWith (fun _ s => s) s m

/-- `PAWSClient._sendRequest`: build the envelope (generating a token
when none is supplied), and if the transport is connected serialize it,
send it and register a fresh response deferred under the token;
otherwise log "Send failed, no connection exists" and return `None`. -/
def sendRequest (s : ClientState) (apiKey : String) (connected : Bool)
    (method : String) (resource : List Char)
    (parameters body : Option String) (tokenArg : Option String) :
    ClientState × Option Nat :=
  let tokenState : String × ClientState :=
    match tokenArg with
    | some t => (t, s)
    | none => (generateToken s.nextToken, { s with nextToken := s.nextToken + 1 })
  let token := tokenState.1
  let s0 := tokenState.2
  let message : OutMessage :=
    { method := method, resource := resource
      headers := [("X-ApiKey", apiKey)]
      parameters := parameters, body := body, token := token }
  if connected then
    let d := s0.nextDeferred
    ({ s0 with
        sent := s0.sent ++ [message]
        pendingResponses := Table.insert s0.pendingResponses token d
        nextDeferred := d + 1 },
     some d)
  else
    (s0, none)

/-- The substring test `'datastreams' in resource` used by `subscribe`
to pick the expected payload kind. -/
def hasSubstring : List Char → List Char → Bool
  | [], needle => needle.isEmpty
  | c :: rest, needle => needle.isPrefixOf (c :: rest) || hasSubstring rest needle

/-- The literal scanned for by `subscribe`. -/
def datastreamsLiteral : List Char := "datastreams".toList

/-- The payload kind `subscribe` infers from the resource path. -/
def kindFor (resource : List Char) : DSKind :=
  if hasSubstring resource datastreamsLiteral
  then DSKind.Datastream else DSKind.Environment

/-- The first half of `subscribe`/`_subscribe`, up to the suspension
point: compute the data-structure class, generate the token and send
the subscribe request. Returns (state, token, deferred handle). -/
def subscribeSend (s : ClientState) (apiKey : String) (connected : Bool)
    (resource : List Char) : ClientState × String × Option Nat :=
  let token := generateToken s.nextToken
  let s0 := { s with nextToken := s.nextToken + 1 }
  let sendResult :=
    sendRequest s0 apiKey connected "subscribe" resource none none (some token)
  (sendResult.1, token, sendResult.2)

/-- The state effect of resuming `subscribe`'s generator when its
acknowledgement deferred fires: compute `response_code` (returned to
the caller, not consulted) and register the subscription entry
unconditionally. -/
def subscribeAckChain (handlerId : Nat) (resource : List Char)
    (token : String) (s : ClientState) : ClientState :=
  { s with subscriptionHandlers :=
      Table.insert s.subscriptionHandlers token (handlerId, kindFor resource) }

/-- `_messageHandler` processing a subscribe acknowledgement: the
pending deferred's callback chain resumes `subscribe`, which registers
the subscription handler; then the pending entry is deleted. -/
def processSubscribeAck (s : ClientState) (handlerId : Nat)
    (resource : List Char) (ack : InMessage) : ClientState × DispatchOutcome :=
  messageHandlerWith (subscribeAckChain handlerId resource) s ack

/-- The `(token, response_code)` pair `subscribe` hands back once the
acknowledgement has been processed. -/
def subscribeResult (token : String) (ack : InMessage) : String × Bool :=
  (token, getResponseCodeStatusFromHeader ack.status)

/-- `PAWSClient.unsubscribe` up to its suspension point: delete the
subscription entry if present, then send the `unsubscribe` request
reusing the same token (which re-registers the token as a pending
one-shot response when the transport is connected). -/
def unsubscribe (s : ClientState) (apiKey : String) (connected : Bool)
    (resource : List Char) (token : String) : ClientState × Option Nat :=
  let s1 :=
    if Table.hasKey s.subscriptionHandlers token then
      { s with subscriptionHandlers := Table.erase s.subscriptionHandlers token }
    else s
  sendRequest s1 apiKey connected "unsubscribe" resource none none (some token)

end PAWSClient

/-!
## HTTPClient timeout bookkeeping (HTTPClient.py lines 55-266)

Client state: the three per-request dicts keyed by the uuid request id
(`pendingRequests`, `pendingTimeouts`, `pendingResponses`) plus an
event trace recording, in execution order, the externally visible
actions the handlers perform (entry deletions, the cancellation of the
in-flight agent request, the disarming of the timer, and the firing of
the caller's response deferred).
-/

namespace HTTPClient

/-- The value a caller's response deferred is fired with:
`none` models `callback(None)`, `some (code, body)` models
`callback((response, responseBody))`. -/
abbrev HTTPResult := Option (Nat × String)

/-- The externally visible actions of the two handlers, in order. -/
inductive HTTPEvent
  /-- `del self.pendingTimeouts[request_id]` -/
  | timeoutEntryDeleted (requestId : String)
  /-- `request_d.cancel()` on the in-flight agent request (its
  CancelledError is swallowed by `ignore_cancelled_error`). -/
  | requestCancelled (requestId : String)
  /-- `self.pendingTimeouts[request_id].cancel()`: the timer is
  disarmed. -/
  | timerCancelled (requestId : String)
  /-- `del self.pendingRequests[request_id]` -/
  | requestEntryDeleted (requestId : String)
  /-- `del self.pendingResponses[request_id]` -/
  | responseEntryDeleted (requestId : String)
  /-- The caller's response deferred fires with the given result. -/
  | callerResolved (requestId : String) (result : HTTPResult)
deriving DecidableEq

structure HTTPClientState where
  /-- `self.pendingRequests`: request id to the agent request deferred. -/
  pendingRequests : Table Nat
  /-- `self.pendingTimeouts`: request id to its `callLater` handle; the
  stored Bool is `true` while the timer is armed. -/
  pendingTimeouts : Table Bool
  /-- `self.pendingResponses`: request id to the caller's response
  deferred. -/
  pendingResponses : Table Nat
  /-- Trace of handler actions. -/
  events : List HTTPEvent
deriving DecidableEq

/-- Disarm the timer stored under a key, keeping the dict entry. -/
def disarmTimer (m : Table Bool) (k : String) : Table Bool :=
  match m with
  | [] => []
  | (k', v) :: rest =>
    if k' = k then (k', false) :: disarmTimer rest k
    else (k', v) :: disarmTimer rest k

/-- `HTTPClient._handle_request_timeout`: delete the pending-timeout
entry, cancel the in-flight agent request (adding an errback that
swallows the CancelledError), and fire the caller's response deferred
with `None`. Neither `pendingRequests[request_id]` nor
`pendingResponses[request_id]` is deleted. -/
def handle_request_timeout (s : HTTPClientState) (requestId : String) :
    HTTPClientState :=
  { s with
      pendingTimeouts := Table.erase s.pendingTimeouts requestId
      events := s.events ++
        [HTTPEvent.timeoutEntryDeleted requestId,
         HTTPEvent.requestCancelled requestId,
         HTTPEvent.callerResolved requestId none] }

/-- `HTTPClient._handle_response`: delete the pending-request entry,
cancel (disarm) the timer — whose dict entry is kept — retrieve the
response body, delete the pending-response entry and fire the caller's
response deferred with the `(response, responseBody)` result. -/
def handle_response (s : HTTPClientState) (requestId : String)
    (code : Nat) (responseBody : String) : HTTPClientState :=
  { s with
      pendingRequests := Table.erase s.pendingRequests requestId
      pendingTimeouts := disarmTimer s.pendingTimeouts requestId
      pendingResponses := Table.erase s.pendingResponses requestId
      events := s.events ++
        [HTTPEvent.requestEntryDeleted requestId,
         HTTPEvent.timerCancelled requestId,
         HTTPEvent.responseEntryDeleted requestId,
         HTTPEvent.callerResolved requestId (some (code, responseBody))] }

/-- `HTTPClient._getResponseCodeStatusFromHeader`: success is exactly a
200 status; anything else is logged and reported as `False`. -/
def getResponseCodeStatusFromHeader (code : Nat) : Bool :=
  code == 200

/-- `HTTPClient._getLocationFromHeader`: on a 201 response return the
first `Location` header value (extra values are tolerated with a
warning); raise an exception (modelled as `Except.error`) when the
header is absent, when its value list is empty, or when the status is
not 201 at all. -/
def getLocationFromHeader (code : Nat) (headers : Table (List String)) :
    Except String String :=
  if code = 201 then
    match Table.lookup headers "Location" with
    | some locations =>
      match locations with
      | [] => Except.error "No content in response header Location field"
      | location :: _ => Except.ok location
    | none => Except.error "No response header Location field found"
  else
    Except.error "Unexpected response"

end HTTPClient

/-!
## Claim theorems
-/

/-- The test chunk from the spec:
the byte sequence of two complete JSON objects followed by an
incomplete third, each object terminated by the newline delimiter. -/
def framingChunk : List Char :=
  "\x7b\"a\":1\x7d\n\x7b\"b\":2\x7d\n\x7b\"c\"".toList

/-- Claim C5: every chunk handed to the persistent-socket transport's
data handler is appended to the buffer; every complete
delimiter-terminated segment before the last (possibly partial)
segment is dispatched as one discrete message, in order (the dispatched
messages followed by the retained buffer, re-joined with the delimiter,
reconstruct buffer ++ chunk, and no dispatched message nor the retained
buffer contains the delimiter); in particular feeding
the two-and-a-half-message test sequence into an empty buffer
dispatches exactly the two complete JSON objects and leaves the partial
one buffered. -/
theorem C5_stream_framing :
    (∀ buffer data : List Char,
      (∀ m ∈ (PAWSProtocol.dataReceived buffer data).1,
          PAWSProtocol.delimiter ∉ m) ∧
      PAWSProtocol.delimiter ∉ (PAWSProtocol.dataReceived buffer data).2 ∧
      List.intercalate [PAWSProtocol.delimiter]
          ((PAWSProtocol.dataReceived buffer data).1 ++
            [(PAWSProtocol.dataReceived buffer data).2]) =
        buffer ++ data) ∧
    PAWSProtocol.dataReceived [] framingChunk =
      (["\x7b\"a\":1\x7d".toList, "\x7b\"b\":2\x7d".toList],
        "\x7b\"c\"".toList) := by
  constructor
  · intro buffer data
    by_cases hmem : PAWSProtocol.delimiter ∈ buffer ++ data
    · have hc : (buffer ++ data).contains PAWSProtocol.delimiter = true := by
        simpa using hmem
      have heq : PAWSProtocol.dataReceived buffer data =
          (((buffer ++ data).splitOn PAWSProtocol.delimiter).dropLast,
            ((buffer ++ data).splitOn PAWSProtocol.delimiter).getLastD []) := by
        simp only [PAWSProtocol.dataReceived]
        rw [if_pos hc]
      have hne : (buffer ++ data).splitOn PAWSProtocol.delimiter ≠ [] :=
        List.splitOnP_ne_nil _ _
      have hsplit := PAWSProtocol.dropLast_append_getLastD
        ((buffer ++ data).splitOn PAWSProtocol.delimiter) [] hne
      refine ⟨?_, ?_, ?_⟩
      · intro m hm
        rw [heq] at hm
        exact PAWSProtocol.not_mem_splitOn_delimiter (buffer ++ data) m
          (List.mem_of_mem_dropLast hm)
      · rw [heq]
        have hin : ((buffer ++ data).splitOn PAWSProtocol.delimiter).getLastD [] ∈
            ((buffer ++ data).splitOn PAWSProtocol.delimiter).dropLast ++
              [((buffer ++ data).splitOn PAWSProtocol.delimiter).getLastD []] :=
          List.mem_append_right _ (List.mem_singleton.mpr rfl)
        rw [hsplit] at hin
        exact PAWSProtocol.not_mem_splitOn_delimiter (buffer ++ data) _ hin
      · rw [heq]
        simp only []
        rw [hsplit]
        exact List.intercalate_splitOn (buffer ++ data) PAWSProtocol.delimiter
    · have hc : (buffer ++ data).contains PAWSProtocol.delimiter = false := by
        simpa using hmem
      have heq : PAWSProtocol.dataReceived buffer data = ([], buffer ++ data) := by
        simp only [PAWSProtocol.dataReceived]
        rw [if_neg (by simpa using hmem)]
      refine ⟨?_, ?_, ?_⟩
      · intro m hm
        rw [heq] at hm
        simp at hm
      · rw [heq]
        exact hmem
      · rw [heq]
        simp [List.intercalate]
  · rfl

/-- Witness for C5: instantiates the universal part at the concrete
test chunk, discharging the membership hypothesis for the first
dispatched message. -/
theorem C5_stream_framing_witness :
    PAWSProtocol.delimiter ∉ "\x7b\"a\":1\x7d".toList :=
  (C5_stream_framing.1 [] framingChunk).1 _ (by decide)

/-- Claim C2: inbound PAWS message dispatch priority. If the message's
token is in `pendingResponses`, that entry is resolved with the message
and removed (one-shot, the subscription table untouched); otherwise, if
the token is in `subscriptionHandlers`, the stored handler is invoked
on the message body decoded as the bound payload kind and nothing is
removed; otherwise the message is logged as unroutable and dropped with
the state unchanged. -/
theorem C2_dispatch_priority (s : PAWSClient.ClientState)
    (m : PAWSClient.InMessage) :
    (∀ d, Table.lookup s.pendingResponses m.token = some d →
      PAWSClient.messageHandler s m =
        ({ s with pendingResponses := Table.erase s.pendingResponses m.token },
          PAWSClient.DispatchOutcome.resolvedPending d m)) ∧
    (∀ handlerId kind,
      Table.lookup s.pendingResponses m.token = none →
      Table.lookup s.subscriptionHandlers m.token = some (handlerId, kind) →
      PAWSClient.messageHandler s m =
        (s, PAWSClient.DispatchOutcome.invokedHandler handlerId kind m.body)) ∧
    (Table.lookup s.pendingResponses m.token = none →
      Table.lookup s.subscriptionHandlers m.token = none →
      PAWSClient.messageHandler s m =
        (s, PAWSClient.DispatchOutcome.unroutable)) := by
  refine ⟨?_, ?_, ?_⟩
  · intro d hd
    simp [PAWSClient.messageHandler, PAWSClient.messageHandlerWith, hd]
  · intro handlerId kind hp hs
    simp [PAWSClient.messageHandler, PAWSClient.messageHandlerWith, hp, hs]
  · intro hp hs
    simp [PAWSClient.messageHandler, PAWSClient.messageHandlerWith, hp, hs]

/-- Witness for C2: one concrete message through each of the three
dispatch branches. -/
theorem C2_dispatch_priority_witness :
    (PAWSClient.messageHandler ⟨[("a", 5)], [], [], 6, 0⟩ ⟨"a", 200, [], "x"⟩ =
      (⟨[], [], [], 6, 0⟩,
        PAWSClient.DispatchOutcome.resolvedPending 5 ⟨"a", 200, [], "x"⟩)) ∧
    (PAWSClient.messageHandler
        ⟨[], [("b", (1, PAWSClient.DSKind.Environment))], [], 0, 0⟩
        ⟨"b", 200, [], "y"⟩ =
      (⟨[], [("b", (1, PAWSClient.DSKind.Environment))], [], 0, 0⟩,
        PAWSClient.DispatchOutcome.invokedHandler 1
          PAWSClient.DSKind.Environment "y")) ∧
    (PAWSClient.messageHandler ⟨[], [], [], 0, 0⟩ ⟨"c", 200, [], "z"⟩ =
      (⟨[], [], [], 0, 0⟩, PAWSClient.DispatchOutcome.unroutable)) := by
  refine ⟨?_, ?_, ?_⟩
  · exact (C2_dispatch_priority ⟨[("a", 5)], [], [], 6, 0⟩ ⟨"a", 200, [], "x"⟩).1
      5 (by decide)
  · exact (C2_dispatch_priority
      ⟨[], [("b", (1, PAWSClient.DSKind.Environment))], [], 0, 0⟩
      ⟨"b", 200, [], "y"⟩).2.1 1 PAWSClient.DSKind.Environment
      (by decide) (by decide)
  · exact (C2_dispatch_priority ⟨[], [], [], 0, 0⟩ ⟨"c", 200, [], "z"⟩).2.2
      (by decide) (by decide)

/-- Claim C3 counterexample: after `unsubscribe` (with the transport
connected), a push message carrying the subscription token is consumed
as the pending unsubscribe acknowledgement — `unsubscribe` re-registered
the token in `pendingResponses` when it sent the unsubscribe request —
so the message is NOT logged as unroutable, contradicting the claimed
"exactly one UnroutableMessage log entry". -/
theorem C3_counterexample :
    (PAWSClient.messageHandler
        (PAWSClient.unsubscribe
          ⟨[], [("t", (7, PAWSClient.DSKind.Datastream))], [], 3, 0⟩
          "key" true ("/feeds/1/datastreams/x".toList) "t").1
        ⟨"t", 200, [], "push"⟩).2 =
      PAWSClient.DispatchOutcome.resolvedPending 3 ⟨"t", 200, [], "push"⟩ ∧
    (PAWSClient.messageHandler
        (PAWSClient.unsubscribe
          ⟨[], [("t", (7, PAWSClient.DSKind.Datastream))], [], 3, 0⟩
          "key" true ("/feeds/1/datastreams/x".toList) "t").1
        ⟨"t", 200, [], "push"⟩).2 ≠
      PAWSClient.DispatchOutcome.unroutable := by
  constructor
  · rfl
  · decide

/-- Claim C3 as amended: `unsubscribe(resource, token)` removes the
Subscription Entry before sending the unsubscribe request, so a push
message carrying that token processed immediately afterwards invokes
the subscription handler zero times; but the message is consumed as the
pending unsubscribe acknowledgement (the unsubscribe request re-entered
the token into `pendingResponses`), not logged as unroutable. -/
theorem C3_unsubscribe_then_push (s : PAWSClient.ClientState)
    (apiKey : String) (resource : List Char) (token : String)
    (status : Nat) (headers : Table String) (body : String) :
    Table.hasKey
        (PAWSClient.unsubscribe s apiKey true resource token).1.subscriptionHandlers
        token = false ∧
    (PAWSClient.messageHandler
        (PAWSClient.unsubscribe s apiKey true resource token).1
        ⟨token, status, headers, body⟩).2 =
      PAWSClient.DispatchOutcome.resolvedPending s.nextDeferred
        ⟨token, status, headers, body⟩ := by
  have hsubs :
      (PAWSClient.unsubscribe s apiKey true resource token).1.subscriptionHandlers =
        Table.erase s.subscriptionHandlers token ∨
      ((PAWSClient.unsubscribe s apiKey true resource token).1.subscriptionHandlers =
          s.subscriptionHandlers ∧
        Table.hasKey s.subscriptionHandlers token = false) := by
    by_cases h : Table.hasKey s.subscriptionHandlers token
    · left
      simp [PAWSClient.unsubscribe, PAWSClient.sendRequest, h]
    · right
      refine ⟨?_, by simpa using h⟩
      simp [PAWSClient.unsubscribe, PAWSClient.sendRequest, h]
  constructor
  · rcases hsubs with h | ⟨h, hk⟩
    · rw [h]
      exact Table.hasKey_erase_self _ _
    · rw [h]
      exact hk
  · have hlook :
        Table.lookup
          (PAWSClient.unsubscribe s apiKey true resource token).1.pendingResponses
          token = some s.nextDeferred := by
      by_cases h : Table.hasKey s.subscriptionHandlers token <;>
        simp [PAWSClient.unsubscribe, PAWSClient.sendRequest, h,
          Table.lookup_insert_self]
    simp [PAWSClient.messageHandler, PAWSClient.messageHandlerWith, hlook]

/-- Claim C4: for a subscribe operation whose acknowledgement arrives
while its token is still pending (and not yet subscribed), the token is
in both tables only in the transition state in which the
acknowledgement's callback chain has registered the handler but the
pending entry has not yet been deleted; once the acknowledgement has
been fully processed the token is absent from `pendingResponses` and
present only in `subscriptionHandlers`. -/
theorem C4_subscribe_ack_table_invariant (s : PAWSClient.ClientState)
    (handlerId : Nat) (resource : List Char) (ack : PAWSClient.InMessage)
    (hpend : Table.hasKey s.pendingResponses ack.token = true)
    (_hsub : Table.hasKey s.subscriptionHandlers ack.token = false) :
    Table.hasKey
        (PAWSClient.subscribeAckChain handlerId resource ack.token s).pendingResponses
        ack.token = true ∧
    Table.hasKey
        (PAWSClient.subscribeAckChain handlerId resource ack.token s).subscriptionHandlers
        ack.token = true ∧
    Table.hasKey
        (PAWSClient.processSubscribeAck s handlerId resource ack).1.pendingResponses
        ack.token = false ∧
    Table.hasKey
        (PAWSClient.processSubscribeAck s handlerId resource ack).1.subscriptionHandlers
        ack.token = true := by
  have hchain_pend :
      (PAWSClient.subscribeAckChain handlerId resource ack.token s).pendingResponses =
        s.pendingResponses := rfl
  refine ⟨by rw [hchain_pend]; exact hpend, ?_, ?_, ?_⟩
  · exact Table.hasKey_insert_self _ _ _
  · rcases Option.isSome_iff_exists.mp (by simpa [Table.hasKey] using hpend)
      with ⟨d, hd⟩
    simp [PAWSClient.processSubscribeAck, PAWSClient.messageHandlerWith, hd,
      Table.hasKey_erase_self]
  · rcases Option.isSome_iff_exists.mp (by simpa [Table.hasKey] using hpend)
      with ⟨d, hd⟩
    simp only [PAWSClient.processSubscribeAck, PAWSClient.messageHandlerWith, hd]
    exact Table.hasKey_insert_self _ _ _

/-- Witness for C4: a concrete subscribe acknowledgement processed
against a state whose pending table holds the token. -/
theorem C4_subscribe_ack_table_invariant_witness :
    Table.hasKey
        (PAWSClient.processSubscribeAck ⟨[("t", 0)], [], [], 1, 0⟩ 2
          ("/feeds/1".toList) ⟨"t", 200, [], "ok"⟩).1.pendingResponses
        "t" = false ∧
    Table.hasKey
        (PAWSClient.processSubscribeAck ⟨[("t", 0)], [], [], 1, 0⟩ 2
          ("/feeds/1".toList) ⟨"t", 200, [], "ok"⟩).1.subscriptionHandlers
        "t" = true := by
  have h := C4_subscribe_ack_table_invariant ⟨[("t", 0)], [], [], 1, 0⟩ 2
    ("/feeds/1".toList) ⟨"t", 200, [], "ok"⟩ (by decide) (by decide)
  exact ⟨h.2.2.1, h.2.2.2⟩

/-- Claim C6 counterexample: a subscribe acknowledgement whose status
is 500 — an unsuccessful acknowledgement, as witnessed by
`_getResponseCodeStatusFromHeader` returning False — still causes the
Subscription Entry to be registered. -/
theorem C6_counterexample :
    PAWSClient.getResponseCodeStatusFromHeader 500 = false ∧
    Table.hasKey
        (PAWSClient.processSubscribeAck ⟨[("t", 0)], [], [], 1, 0⟩ 2
          ("/feeds/1/datastreams/x".toList) ⟨"t", 500, [], "err"⟩).1.subscriptionHandlers
        "t" = true := by decide

/-- Claim C6 as amended: processing a subscribe acknowledgement
registers the Subscription Entry — bound to the handler and to the
payload kind chosen by the substring test on the resource path —
whatever the acknowledgement's status; the success flag computed from
the status is returned to the caller but never consulted before
registration. -/
theorem C6_subscribe_registers_unconditionally (s : PAWSClient.ClientState)
    (handlerId : Nat) (resource : List Char) (ack : PAWSClient.InMessage)
    (d : Nat) (h : Table.lookup s.pendingResponses ack.token = some d) :
    Table.lookup
        (PAWSClient.processSubscribeAck s handlerId resource ack).1.subscriptionHandlers
        ack.token =
      some (handlerId,
        if PAWSClient.hasSubstring resource PAWSClient.datastreamsLiteral
        then PAWSClient.DSKind.Datastream else PAWSClient.DSKind.Environment) ∧
    (PAWSClient.subscribeResult ack.token ack).2 = (ack.status == 200) := by
  constructor
  · simp only [PAWSClient.processSubscribeAck, PAWSClient.messageHandlerWith, h]
    exact Table.lookup_insert_self _ _ _
  · rfl

/-- Witness for C6's amended theorem: an unsuccessful (status 500)
acknowledgement against a concrete pending state. -/
theorem C6_subscribe_registers_unconditionally_witness :
    Table.lookup
        (PAWSClient.processSubscribeAck ⟨[("t", 0)], [], [], 1, 0⟩ 2
          ("/feeds/1".toList) ⟨"t", 500, [], "err"⟩).1.subscriptionHandlers
        "t" =
      some (2, PAWSClient.DSKind.Environment) := by
  have h := C6_subscribe_registers_unconditionally ⟨[("t", 0)], [], [], 1, 0⟩ 2
    ("/feeds/1".toList) ⟨"t", 500, [], "err"⟩ 0 (by decide)
  simpa using h.1

/-- Claim C7: `_sendRequest` with the transport not connected fails
immediately — it returns `None` instead of a pending deferred, writes
nothing to the transport, and registers no pending-response entry:
`sent`, `pendingResponses` and `subscriptionHandlers` are all left
unchanged. -/
theorem C7_send_fails_when_disconnected (s : PAWSClient.ClientState)
    (apiKey method : String) (resource : List Char)
    (parameters body tokenArg : Option String) :
    (PAWSClient.sendRequest s apiKey false method resource parameters body
        tokenArg).2 = none ∧
    (PAWSClient.sendRequest s apiKey false method resource parameters body
        tokenArg).1.sent = s.sent ∧
    (PAWSClient.sendRequest s apiKey false method resource parameters body
        tokenArg).1.pendingResponses = s.pendingResponses ∧
    (PAWSClient.sendRequest s apiKey false method resource parameters body
        tokenArg).1.subscriptionHandlers = s.subscriptionHandlers := by
  cases tokenArg <;> simp [PAWSClient.sendRequest]

/-- Claim C8 counterexample: after a connection was registered and then
lost, `connect()` is a no-op resolving immediately and successfully
(`self.connection` is never reset to `None`), with no new TCP
connection attempt — although the factory is not connected. -/
theorem C8_counterexample :
    (PAWSProtocolFactory.clientConnectionLost
        (PAWSProtocolFactory.registerConnection
          (PAWSProtocolFactory.buildProtocol PAWSProtocolFactory.initialFactory)
          1)).connected = false ∧
    PAWSProtocolFactory.connect
        (PAWSProtocolFactory.clientConnectionLost
          (PAWSProtocolFactory.registerConnection
            (PAWSProtocolFactory.buildProtocol PAWSProtocolFactory.initialFactory)
            1)) =
      (PAWSProtocolFactory.clientConnectionLost
        (PAWSProtocolFactory.registerConnection
          (PAWSProtocolFactory.buildProtocol PAWSProtocolFactory.initialFactory)
          1),
        PAWSProtocolFactory.ConnectOutcome.immediateSuccess) := by
  exact ⟨rfl, rfl⟩

/-- Claim C8 as amended: `connect()` branches on whether a protocol
connection object has ever been registered, not on the connected flag:
when `self.connection is None` it opens a TCP connection and suspends
the caller on a fresh deferred; whenever a connection object exists —
connected, or lost and never cleared — it is a no-op resolving
immediately and successfully with no new TCP attempt. -/
theorem C8_connect_branches_on_connection_object
    (s : PAWSProtocolFactory.FactoryState) :
    (s.connection = none →
      PAWSProtocolFactory.connect s =
        ({ s with tcpConnectAttempts := s.tcpConnectAttempts + 1 },
          PAWSProtocolFactory.ConnectOutcome.suspendedOnNewConnection)) ∧
    (∀ p, s.connection = some p →
      PAWSProtocolFactory.connect s =
        (s, PAWSProtocolFactory.ConnectOutcome.immediateSuccess)) := by
  constructor
  · intro h
    simp [PAWSProtocolFactory.connect, h]
  · intro p h
    simp [PAWSProtocolFactory.connect, h]

/-- Witness for C8's amended theorem: both branches at concrete factory
states. -/
theorem C8_connect_branches_witness :
    PAWSProtocolFactory.connect PAWSProtocolFactory.initialFactory =
      ({ PAWSProtocolFactory.initialFactory with tcpConnectAttempts := 1 },
        PAWSProtocolFactory.ConnectOutcome.suspendedOnNewConnection) ∧
    PAWSProtocolFactory.connect ⟨some 1, true, true, 1⟩ =
      (⟨some 1, true, true, 1⟩,
        PAWSProtocolFactory.ConnectOutcome.immediateSuccess) := by
  constructor
  · exact (C8_connect_branches_on_connection_object
      PAWSProtocolFactory.initialFactory).1 rfl
  · exact (C8_connect_branches_on_connection_object ⟨some 1, true, true, 1⟩).2
      1 rfl

/-- Claim C1 counterexample: when the deadline timer fires for request
id r1, `_handle_request_timeout` deletes only the pending-timeout
entry; the entries for r1 in `pendingRequests` and `pendingResponses`
both remain afterwards, contradicting "no entry for its request
identifier remains in any of the client's pending tables". -/
theorem C1_counterexample :
    Table.hasKey
        (HTTPClient.handle_request_timeout
          ⟨[("r1", 0)], [("r1", true)], [("r1", 5)], []⟩ "r1").pendingRequests
        "r1" = true ∧
    Table.hasKey
        (HTTPClient.handle_request_timeout
          ⟨[("r1", 0)], [("r1", true)], [("r1", 5)], []⟩ "r1").pendingResponses
        "r1" = true := by decide

/-- Claim C1 as amended: the fired-timeout handler cancels the
underlying in-flight operation (swallowing its CancelledError) and
resolves the caller's pending result with `None` — which carries no
distinct Timeout kind — and removes only the request's pending-timeout
entry: its `pendingRequests` and `pendingResponses` entries are left in
place. -/
theorem C1_timeout_fired_effects (s : HTTPClient.HTTPClientState)
    (rid : String) :
    Table.hasKey (HTTPClient.handle_request_timeout s rid).pendingTimeouts
        rid = false ∧
    (HTTPClient.handle_request_timeout s rid).pendingRequests =
      s.pendingRequests ∧
    (HTTPClient.handle_request_timeout s rid).pendingResponses =
      s.pendingResponses ∧
    (HTTPClient.handle_request_timeout s rid).events =
      s.events ++
        [HTTPClient.HTTPEvent.timeoutEntryDeleted rid,
         HTTPClient.HTTPEvent.requestCancelled rid,
         HTTPClient.HTTPEvent.callerResolved rid none] :=
  ⟨Table.hasKey_erase_self _ _, rfl, rfl, rfl⟩

/-- The timer handle stored under a disarmed key keeps its table entry
but drops to the disarmed state. -/
theorem lookup_disarmTimer_self (m : Table Bool) (k : String) :
    Table.lookup (HTTPClient.disarmTimer m k) k =
      (Table.lookup m k).map (fun _ => false) := by
  induction m with
  | nil => rfl
  | cons p rest ih =>
    obtain ⟨k', v⟩ := p
    by_cases h : k' = k
    · simp [HTTPClient.disarmTimer, Table.lookup, h]
    · simpa [HTTPClient.disarmTimer, Table.lookup, h] using ih

/-- Claim C9 counterexample: after `_handle_response` for request id
r1, the pending-timeouts table still has an entry for r1 — the timer
was cancelled but its dict entry never deleted — contradicting "the
request's Timeout Entry is destroyed (removed from the pending-timeouts
table)". -/
theorem C9_counterexample :
    Table.hasKey
        (HTTPClient.handle_response ⟨[("r1", 0)], [("r1", true)], [("r1", 5)], []⟩
          "r1" 200 "ok").pendingTimeouts "r1" = true := by decide

/-- Claim C9 as amended: the response-arrival handler cancels (disarms)
the deadline timer before resolving the caller — visible in the event
order: `timerCancelled` precedes `callerResolved` — and deletes the
`pendingRequests` and `pendingResponses` entries, but the
pending-timeouts entry is retained, merely flipped to disarmed. -/
theorem C9_response_arrival_effects (s : HTTPClient.HTTPClientState)
    (rid : String) (code : Nat) (responseBody : String) :
    Table.hasKey (HTTPClient.handle_response s rid code responseBody).pendingTimeouts
        rid = Table.hasKey s.pendingTimeouts rid ∧
    Table.lookup (HTTPClient.handle_response s rid code responseBody).pendingTimeouts
        rid = (Table.lookup s.pendingTimeouts rid).map (fun _ => false) ∧
    Table.hasKey (HTTPClient.handle_response s rid code responseBody).pendingRequests
        rid = false ∧
    Table.hasKey (HTTPClient.handle_response s rid code responseBody).pendingResponses
        rid = false ∧
    (HTTPClient.handle_response s rid code responseBody).events =
      s.events ++
        [HTTPClient.HTTPEvent.requestEntryDeleted rid,
         HTTPClient.HTTPEvent.timerCancelled rid,
         HTTPClient.HTTPEvent.responseEntryDeleted rid,
         HTTPClient.HTTPEvent.callerResolved rid (some (code, responseBody))] := by
  refine ⟨?_, lookup_disarmTimer_self _ _, Table.hasKey_erase_self _ _,
    Table.hasKey_erase_self _ _, rfl⟩
  have h1 : (HTTPClient.handle_response s rid code responseBody).pendingTimeouts =
      HTTPClient.disarmTimer s.pendingTimeouts rid := rfl
  simp only [Table.hasKey, h1, lookup_disarmTimer_self]
  cases Table.lookup s.pendingTimeouts rid <;> rfl

/-- Claim C10 counterexample: a creation response with the unexpected
status 400 makes `_getLocationFromHeader` raise a hard error (modelled
as `Except.error`) on both transports, although its status-code failure
is not the missing-Location-header-on-201 case that the claim names as
the single exception to soft-failure handling. -/
theorem C10_counterexample :
    HTTPClient.getLocationFromHeader 400
        [("Location", ["http://api.cosm.com/v2/feeds/504"])] =
      Except.error "Unexpected response" ∧
    PAWSClient.getLocationFromHeader 400 [("LOCATION", "/feeds/504")] =
      Except.error "Unexpected response. Expected 201" := by
  exact ⟨rfl, rfl⟩

/-- Claim C10 as amended: a non-creation operation's unexpected status
is a soft failure — the status check just returns False (logged) and no
exception arises — while the creation path's location extraction raises
a hard error not only when a 201 response lacks a `Location` header
(or, on the HTTP transport, carries an empty value list) but for every
non-201 status as well; it succeeds exactly on a 201 with a populated
location header, returning the first value. -/
theorem C10_unexpected_status_surfacing (code : Nat)
    (headers : Table (List String)) (pawsHeaders : Table String) :
    (HTTPClient.getResponseCodeStatusFromHeader code = true ↔ code = 200) ∧
    (PAWSClient.getResponseCodeStatusFromHeader code = true ↔ code = 200) ∧
    ((∃ loc, HTTPClient.getLocationFromHeader code headers = Except.ok loc) ↔
      code = 201 ∧
        ∃ loc rest, Table.lookup headers "Location" = some (loc :: rest)) ∧
    ((∃ loc, PAWSClient.getLocationFromHeader code pawsHeaders = Except.ok loc) ↔
      code = 201 ∧ ∃ loc, Table.lookup pawsHeaders "LOCATION" = some loc) := by
  refine ⟨by simp [HTTPClient.getResponseCodeStatusFromHeader],
    by simp [PAWSClient.getResponseCodeStatusFromHeader], ?_, ?_⟩
  · constructor
    · rintro ⟨loc, hloc⟩
      by_cases hc : code = 201
      · refine ⟨hc, ?_⟩
        simp only [HTTPClient.getLocationFromHeader, if_pos hc] at hloc
        match h : Table.lookup headers "Location" with
        | none => rw [h] at hloc; exact absurd hloc (by simp)
        | some [] => rw [h] at hloc; exact absurd hloc (by simp)
        | some (l :: rest) => exact ⟨l, rest, rfl⟩
      · simp only [HTTPClient.getLocationFromHeader, if_neg hc] at hloc
        exact absurd hloc (by simp)
    · rintro ⟨hc, loc, rest, h⟩
      exact ⟨loc, by simp [HTTPClient.getLocationFromHeader, hc, h]⟩
  · constructor
    · rintro ⟨loc, hloc⟩
      by_cases hc : code = 201
      · refine ⟨hc, ?_⟩
        simp only [PAWSClient.getLocationFromHeader, if_pos hc] at hloc
        match h : Table.lookup pawsHeaders "LOCATION" with
        | none => rw [h] at hloc; exact absurd hloc (by simp)
        | some l => exact ⟨l, rfl⟩
      · simp only [PAWSClient.getLocationFromHeader, if_neg hc] at hloc
        exact absurd hloc (by simp)
    · rintro ⟨hc, loc, h⟩
      exact ⟨loc, by simp [PAWSClient.getLocationFromHeader, hc, h]⟩

end Txcosm
